import Mathlib

/-!
Verification development for the Ai-DQ repository.

The repository ships one source file, `app.py`, the Flask calling layer.  The
data-quality engine itself (`src/services/dq_analyzer.py`, class
`DataQualityAnalyzer`) is referenced by `app.py` but its source is not part of
the packaged tree, so the engine is modelled from the specification
(sections 3, 4 and 7 of the design document); every such definition carries a
doc comment starting with `Modelled from the spec:`.  The calling-layer
definitions are translated directly from `app.py`.

Scores are rationals, issue severities and kinds are enumerations, and the
analysis entry point is a total function into `Except InputError Report`,
mirroring the raise/return contract of the documented engine.
-/

/-- Modelled from the spec: a raw cell value of a tabular dataset — either an
explicit null marker or a string payload (blank and whitespace-only strings
count as missing, section 4.2). -/
inductive Value where
  | null : Value
  | str : String → Value
deriving DecidableEq

/-- Whitespace characters recognised when trimming values. -/
def isWs (c : Char) : Bool :=
  c = ' ' || c = '\t' || c = '\n' || c = '\r'

/-- Trim leading and trailing whitespace from a character list. -/
def trimCh (l : List Char) : List Char :=
  ((l.dropWhile isWs).reverse.dropWhile isWs).reverse

/-- A string is blank when it trims to the empty character list. -/
def isBlankStr (s : String) : Bool :=
  trimCh s.toList = ([] : List Char)

/-- Modelled from the spec: a value is missing when it is null, blank or
whitespace-only (section 4.2). -/
def Value.isMissing : Value → Bool
  | Value.null => true
  | Value.str s => isBlankStr s

/-- The non-null, non-blank payloads of a column, in order. -/
def presentValues (col : List Value) : List String :=
  col.filterMap fun v =>
    match v with
    | Value.null => none
    | Value.str s => if isBlankStr s then none else some s

/-- Number of missing entries of a column. -/
def missingCount (col : List Value) : Nat :=
  (col.filter Value.isMissing).length

/-- Modelled from the spec: the generic ratio score 100 * k / n used by all
four dimension scorers, defaulting to 100 when the denominator is zero
(sections 4.2 to 4.5 and the zero-row degenerate case of section 4.8). -/
def ratioScore (k n : Nat) : ℚ :=
  if n = 0 then 100 else 100 * (k : ℚ) / (n : ℚ)

/-- Modelled from the spec: completeness score, section 4.2 — fraction of
non-null, non-blank values over the row count, scaled to 100. -/
def completenessScore (col : List Value) : ℚ :=
  ratioScore (presentValues col).length col.length

/-- Modelled from the spec: fraction of missing values of a column, zero for a
zero-row column. -/
def missingFrac (col : List Value) : ℚ :=
  if col.length = 0 then 0 else (missingCount col : ℚ) / (col.length : ℚ)

/-- Modelled from the spec: the inferred-type enumeration of section 3
(numeric, integer, date, email, phone, categorical/text, identifier, boolean,
unknown). -/
inductive DType where
  | numeric | integer | date | email | phone
  | categorical | identifier | boolean | text | unknown
deriving DecidableEq

/-- Split a character list on a separator character. -/
def splitCh (c : Char) : List Char → List (List Char)
  | [] => [[]]
  | x :: xs =>
    let r := splitCh c xs
    if x = c then [] :: r
    else
      match r with
      | [] => [[x]]
      | y :: ys => (x :: y) :: ys

/-- Numeric value of a list of decimal digit characters. -/
def digitsToNat (l : List Char) : Nat :=
  l.foldl (fun a c => 10 * a + (c.toNat - 48)) 0

/-- Modelled from the spec: integers are optional-sign digit strings
(section 4.1, the integer split of the numeric classifier). -/
def isIntegerStr (s : String) : Bool :=
  let t := if s.startsWith ("-") then (s.toList.drop 1) else s.toList
  t.length > 0 && t.all Char.isDigit

/-- Modelled from the spec: numbers are optional-sign digit strings with at
most one decimal point and digits on both sides (section 4.1 classifier a). -/
def isNumericStr (s : String) : Bool :=
  let t := if s.startsWith ("-") then (s.toList.drop 1) else s.toList
  match splitCh '.' t with
  | [a] => a.length > 0 && a.all Char.isDigit
  | [a, b] => a.length > 0 && b.length > 0 && a.all Char.isDigit && b.all Char.isDigit
  | _ => false

/-- Modelled from the spec: the default plausible-range check for numeric
values — the integer part stays below twelve digits, rejecting implausible
sentinel magnitudes (section 4.3, configurable default). -/
def numericMagnitudeOk (s : String) : Bool :=
  let t := if s.startsWith ("-") then (s.toList.drop 1) else s.toList
  ((splitCh '.' t).headD []).length ≤ 12

/-- Modelled from the spec: the ISO-8601 calendar date shape YYYY-MM-DD from
the recognised date vocabulary (section 4.1 classifier b). -/
def isDateStr (s : String) : Bool :=
  match splitCh '-' s.toList with
  | [y, m, d] =>
    y.length = 4 && m.length = 2 && d.length = 2 &&
    y.all Char.isDigit && m.all Char.isDigit && d.all Char.isDigit
  | _ => false

/-- Modelled from the spec: the plausible calendar range of section 4.3 —
year 1000 to 2999, month 1 to 12, day 1 to 31. -/
def dateInRange (s : String) : Bool :=
  match splitCh '-' s.toList with
  | [y, m, d] =>
    let yn := digitsToNat y
    let mn := digitsToNat m
    let dn := digitsToNat d
    1000 ≤ yn && yn ≤ 2999 && 1 ≤ mn && mn ≤ 12 && 1 ≤ dn && dn ≤ 31
  | _ => false

/-- Modelled from the spec: the local-at-domain structural email grammar with
a dotted, non-degenerate domain (sections 4.1 and 4.3). -/
def isEmailStr (s : String) : Bool :=
  match splitCh '@' s.toList with
  | [lp, dp] =>
    lp.length > 0 && dp.length > 0 &&
    (splitCh '.' dp).length ≥ 2 && (splitCh '.' dp).all (fun p => p.length > 0)
  | _ => false

/-- Characters admitted in a phone value: digits and common separators. -/
def isPhoneChar (c : Char) : Bool :=
  c.isDigit || c = ' ' || c = '-' || c = '(' || c = ')' || c = '+' || c = '.'

/-- Modelled from the spec: the phone structural pattern — digit groups with
optional separators and 7 to 15 digits overall (sections 4.1 and 4.3). -/
def isPhoneStr (s : String) : Bool :=
  s.toList.all isPhoneChar &&
  7 ≤ (s.toList.filter Char.isDigit).length &&
  (s.toList.filter Char.isDigit).length ≤ 15

/-- Modelled from the spec: the identifier heuristic — values all distinct,
alphanumeric, non-empty and of one fixed length (section 4.1 classifier e). -/
def isIdentifierCol (vals : List String) : Bool :=
  vals.length > 0 &&
  vals.dedup.length = vals.length &&
  vals.all (fun s => s.length > 0 && s.toList.all Char.isAlphanum) &&
  vals.all (fun s => s.length = (vals.headD ("")).length)

/-- Modelled from the spec: the bounded sample size of the type inferrer
(section 4.1, full column when small). -/
def sampleLimit : Nat := 100

/-- Whether at least num/den of the list satisfies the predicate. -/
def matchesAtLeast (p : String → Bool) (xs : List String) (num den : Nat) : Bool :=
  den * (xs.filter p).length ≥ num * xs.length

/-- Modelled from the spec: the ordered heuristic classifier chain of
section 4.1 — numeric (95 percent, split integer versus decimal), then date,
email and phone at 90 percent, then identifier, then categorical (at most 20
distinct values or at most 10 percent of the rows), otherwise text; unknown
only for an entirely empty column.  Ties break toward the earliest
classifier.  Sampling takes the first `sampleLimit` present values, so it is
deterministic. -/
def inferType (col : List Value) : DType :=
  let xs := (presentValues col).take sampleLimit
  if xs.length = 0 then DType.unknown
  else if matchesAtLeast isNumericStr xs 19 20 then
    (if (xs.filter isNumericStr).all isIntegerStr then DType.integer else DType.numeric)
  else if matchesAtLeast isDateStr xs 9 10 then DType.date
  else if matchesAtLeast isEmailStr xs 9 10 then DType.email
  else if matchesAtLeast isPhoneStr xs 9 10 then DType.phone
  else if isIdentifierCol xs then DType.identifier
  else if xs.dedup.length ≤ 20 || xs.dedup.length * 10 ≤ col.length then DType.categorical
  else DType.text

/-- Modelled from the spec: the per-type correctness rule of section 4.3 —
numeric and integer values must parse and sit in the plausible range, dates
must parse and sit in the calendar range, emails and phones must match the
structural grammar, and identifier, categorical, boolean, text and unknown
carry no format rule. -/
def validFor (t : DType) (s : String) : Bool :=
  match t with
  | DType.numeric => isNumericStr s && numericMagnitudeOk s
  | DType.integer => isNumericStr s && numericMagnitudeOk s
  | DType.date => isDateStr s && dateInRange s
  | DType.email => isEmailStr s
  | DType.phone => isPhoneStr s
  | _ => true

/-- Modelled from the spec: correctness score, section 4.3 — valid fraction of
the present values, vacuously 100 for a column with no present values. -/
def correctnessScore (col : List Value) (t : DType) : ℚ :=
  let xs := presentValues col
  ratioScore (xs.filter (validFor t)).length xs.length

/-- Modelled from the spec: uniqueness score, section 4.4 — distinct fraction
of the present values, vacuously 100 when the column has no present value. -/
def uniquenessScore (col : List Value) : ℚ :=
  let xs := presentValues col
  ratioScore xs.dedup.length xs.length

/-- Structural pattern of a value: digits collapse to the digit marker,
letters to the letter marker, other characters stay. -/
def patternOf (s : String) : String :=
  String.mk (s.toList.map fun c =>
    if c.isDigit then '9' else if c.isAlpha then 'a' else c)

/-- Size of the largest fiber of equal elements in a list. -/
def modeCount (xs : List String) : Nat :=
  (xs.map (fun p => (xs.filter (fun q => q == p)).length)).foldl max 0

/-- Canonical casing form of a value: trimmed and lower-cased. -/
def canonForm (s : String) : String :=
  String.mk ((trimCh s.toList).map Char.toLower)

/-- Modelled from the spec: consistency score, section 4.5 — for date,
numeric, integer, phone and email columns the fraction sharing the most
common structural pattern; for the remaining types the fraction of values
already in their trimmed, case-normalised canonical form; vacuously 100 when
no value is present. -/
def consistencyScore (col : List Value) (t : DType) : ℚ :=
  let xs := presentValues col
  match t with
  | DType.numeric | DType.integer | DType.date | DType.email | DType.phone =>
    ratioScore (modeCount (xs.map patternOf)) xs.length
  | _ =>
    ratioScore (xs.filter (fun s => s == canonForm s)).length xs.length

/-- Modelled from the spec: the fixed grade thresholds of section 4.6. -/
def qualityGrade (s : ℚ) : String :=
  if 90 ≤ s then "A"
  else if 75 ≤ s then "B"
  else if 60 ≤ s then "C"
  else if 40 ≤ s then "D"
  else "F"

/-- Modelled from the spec: the fixed issue-kind enumeration of section 3. -/
inductive IssueKind where
  | missing_values | format_violation | out_of_range
  | duplicate_key | duplicate_values | format_inconsistency
deriving DecidableEq

/-- Modelled from the spec: the severity scale of section 3. -/
inductive Severity where
  | critical | high | medium | low | info
deriving DecidableEq

/-- Collation rank of a severity, most severe first (section 4.7). -/
def severityRank : Severity → Nat
  | Severity.critical => 0
  | Severity.high => 1
  | Severity.medium => 2
  | Severity.low => 3
  | Severity.info => 4

/-- Modelled from the spec: a structured issue record of section 3 — kind,
severity, description, owning field (or a dash for table-wide), and the
percentage affected. -/
structure Issue where
  type : IssueKind
  severity : Severity
  description : String
  field : String
  affected : ℚ
deriving DecidableEq

/-- Modelled from the spec: severity of a missing-values issue scaled by the
missing fraction (section 4.2). -/
def missingSeverity (r : ℚ) : Severity :=
  if 1/2 ≤ r then Severity.critical
  else if 1/5 ≤ r then Severity.high
  else if 1/20 ≤ r then Severity.medium
  else Severity.low

/-- Modelled from the spec: the completeness scorer emits one missing-values
issue whenever the missing fraction is positive (section 4.2). -/
def completenessIssues (name : String) (col : List Value) : List Issue :=
  let r := missingFrac col
  if 0 < r then
    [{ type := IssueKind.missing_values, severity := missingSeverity r,
       description := "missing or blank values", field := name,
       affected := 100 * r }]
  else []

/-- Issue kind reported by the correctness validator for a type: range kinds
for numeric, integer and date, format kinds otherwise (section 4.3). -/
def correctnessKind (t : DType) : IssueKind :=
  match t with
  | DType.numeric | DType.integer | DType.date => IssueKind.out_of_range
  | _ => IssueKind.format_violation

/-- Modelled from the spec: the correctness validator emits one issue when
some present value violates the type rule, severity high when the violation
fraction exceeds one fifth and medium otherwise (section 4.3). -/
def correctnessIssues (name : String) (col : List Value) (t : DType) : List Issue :=
  let xs := presentValues col
  let bad := (xs.filter (fun s => !(validFor t s))).length
  if 0 < bad then
    [{ type := correctnessKind t,
       severity := if xs.length < 5 * bad then Severity.high else Severity.medium,
       description := "values violating the type rule", field := name,
       affected := 100 * (bad : ℚ) / (xs.length : ℚ) }]
  else []

/-- Modelled from the spec: the uniqueness scorer emits a critical
duplicate-key issue for identifier columns and a medium duplicate-values
issue otherwise, whenever the uniqueness score falls below 100
(section 4.4). -/
def uniquenessIssues (name : String) (col : List Value) (t : DType) : List Issue :=
  if uniquenessScore col < 100 then
    (if t = DType.identifier then
      [{ type := IssueKind.duplicate_key, severity := Severity.critical,
         description := "duplicate identifier values", field := name,
         affected := 100 - uniquenessScore col }]
    else
      [{ type := IssueKind.duplicate_values, severity := Severity.medium,
         description := "duplicate values", field := name,
         affected := 100 - uniquenessScore col }])
  else []

/-- Modelled from the spec: the consistency scorer emits one medium
format-inconsistency issue whenever the consistency score falls below 100
(section 4.5). -/
def consistencyIssues (name : String) (col : List Value) (t : DType) : List Issue :=
  if consistencyScore col t < 100 then
    [{ type := IssueKind.format_inconsistency, severity := Severity.medium,
       description := "inconsistent value representation", field := name,
       affected := 100 - consistencyScore col t }]
  else []

/-- Modelled from the spec: a field-analysis record of section 3 — name,
inferred type, the four dimension scores, the overall score and the grade. -/
structure FieldAnalysis where
  field_name : String
  data_type : DType
  completeness_score : ℚ
  correctness_score : ℚ
  uniqueness_score : ℚ
  consistency_score : ℚ
  overall_score : ℚ
  quality_grade : String
deriving DecidableEq

/-- Modelled from the spec: analysis of one column — infer the type, run the
four scorers, average them equally and grade the result (sections 4.1 to 4.6
with the default equal weights). -/
def analyzeField (name : String) (col : List Value) : FieldAnalysis :=
  let t := inferType col
  let c1 := completenessScore col
  let c2 := correctnessScore col t
  let c3 := uniquenessScore col
  let c4 := consistencyScore col t
  let ov := (c1 + c2 + c3 + c4) / 4
  { field_name := name, data_type := t,
    completeness_score := c1, correctness_score := c2,
    uniqueness_score := c3, consistency_score := c4,
    overall_score := ov, quality_grade := qualityGrade ov }

/-- All issues contributed by one column, scorer order within the field. -/
def fieldIssues (name : String) (col : List Value) : List Issue :=
  let t := inferType col
  completenessIssues name col ++ correctnessIssues name col t ++
    uniquenessIssues name col t ++ consistencyIssues name col t

/-- Modelled from the spec: issue collation of section 4.7 — stable ordering
by severity rank, then by field declaration order. -/
def orderIssues (iss : List Issue) : List Issue :=
  ((List.range 5).map (fun r => iss.filter (fun i => severityRank i.severity == r))).flatten

/-- Modelled from the spec: the table-level score record of section 3. -/
structure TableScore where
  completeness_score : ℚ
  correctness_score : ℚ
  uniqueness_score : ℚ
  consistency_score : ℚ
  overall_score : ℚ
  quality_grade : String
deriving DecidableEq

/-- Mean of a rational list, defaulting to 100 on the empty list (the
zero-column mean never arises for a wellformed dataset). -/
def meanQ (xs : List ℚ) : ℚ :=
  if xs.length = 0 then 100 else xs.sum / (xs.length : ℚ)

/-- Modelled from the spec: the engine report of section 4.8 — table scores,
per-field analyses and the collated issues. -/
structure Report where
  table_scores : TableScore
  field_analyses : List FieldAnalysis
  issues : List Issue
deriving DecidableEq

/-- Modelled from the spec: the fatal input-error taxonomy of section 7 — a
dataset with no column, or rows with inconsistent column sets. -/
inductive InputError where
  | noColumns | raggedRows
deriving DecidableEq

/-- Modelled from the spec: a dataset — a stable column list plus rows of
values, one value per column when wellformed (section 3). -/
structure Dataset where
  columns : List String
  rows : List (List Value)
deriving DecidableEq

/-- Column extraction in declaration order. -/
def columnAt (d : Dataset) (j : Nat) : List Value :=
  d.rows.map (fun r => r.getD j Value.null)

/-- The per-column analyses of a dataset, in column declaration order. -/
def analyzeFields (d : Dataset) : List FieldAnalysis :=
  (List.range d.columns.length).map
    (fun j => analyzeField (d.columns.getD j ("")) (columnAt d j))

/-- The collated issues of a dataset, severity rank first, field order
within a rank. -/
def analyzeIssues (d : Dataset) : List Issue :=
  orderIssues (((List.range d.columns.length).map
    (fun j => fieldIssues (d.columns.getD j ("")) (columnAt d j))).flatten)

/-- Modelled from the spec: the table-level aggregation of section 4.6 —
per-dimension means across all fields, the overall mean of the field overall
scores, and its grade. -/
def analyzeTableScore (d : Dataset) : TableScore :=
  { completeness_score := meanQ ((analyzeFields d).map (fun f => f.completeness_score)),
    correctness_score := meanQ ((analyzeFields d).map (fun f => f.correctness_score)),
    uniqueness_score := meanQ ((analyzeFields d).map (fun f => f.uniqueness_score)),
    consistency_score := meanQ ((analyzeFields d).map (fun f => f.consistency_score)),
    overall_score := meanQ ((analyzeFields d).map (fun f => f.overall_score)),
    quality_grade := qualityGrade (meanQ ((analyzeFields d).map (fun f => f.overall_score))) }

/-- The complete report assembled for a wellformed dataset. -/
def analyzeReport (d : Dataset) : Report :=
  { table_scores := analyzeTableScore d,
    field_analyses := analyzeFields d,
    issues := analyzeIssues d }

/-- Modelled from the spec: the orchestrator `analyze` of section 4.8 — fail
with exactly an input error on a malformed dataset, otherwise analyse every
column, aggregate the per-dimension and overall means and collate the
issues.  The function is total, so no other failure can escape. -/
def analyze (d : Dataset) : Except InputError Report :=
  if d.columns.length = 0 then Except.error InputError.noColumns
  else if !(d.rows.all (fun r => r.length = d.columns.length)) then
    Except.error InputError.raggedRows
  else Except.ok (analyzeReport d)

/-- Modelled from the spec: the engine object referenced by the calling layer
as `DataQualityAnalyzer`; its only state is the issue collector, which every
run resets (sections 4.7 and 5). -/
structure DataQualityAnalyzer where
  issues : List Issue
deriving DecidableEq

/-- Modelled from the spec: the instance entry point `analyze_dataframe`
called by `app.py` — runs the pure analysis from a fresh collector and leaves
the run's own issues as the post-state; the prior instance state is never
consulted (section 5). -/
def DataQualityAnalyzer.analyze_dataframe (_a : DataQualityAnalyzer)
    (d : Dataset) : Except InputError (Report × DataQualityAnalyzer) :=
  match analyze d with
  | Except.error e => Except.error e
  | Except.ok r => Except.ok (r, { issues := r.issues })

/-- Fallback table score used only to totalise report extraction. -/
def emptyTableScore : TableScore :=
  { completeness_score := 100, correctness_score := 100,
    uniqueness_score := 100, consistency_score := 100,
    overall_score := 100, quality_grade := "A" }

/-- Fallback report used only to totalise report extraction. -/
def emptyReport : Report :=
  { table_scores := emptyTableScore, field_analyses := [], issues := [] }

/-- The report of a dataset whose analysis succeeds. -/
def reportOf (d : Dataset) : Report :=
  match analyze d with
  | Except.ok r => r
  | Except.error _ => emptyReport

/-- The AI-insight value stored by the routes: either the generator's free
text passed through verbatim, or the failure record with success false and
the stringified error (app.py lines 106 to 112 and 164 to 170). -/
inductive AiInsights where
  | fromLLM : String → AiInsights
  | failure : String → AiInsights
deriving DecidableEq

/-- The argument dictionary built for `llm_service.analyze_table_quality` in
app.py lines 100 to 105 and 158 to 163: the display name, the domain string,
the six table-score entries spliced in at top level by the double-star
splat, and the issues list. -/
structure LLMPayload where
  table_name : String
  domain : String
  completeness_score : ℚ
  correctness_score : ℚ
  uniqueness_score : ℚ
  consistency_score : ℚ
  overall_score : ℚ
  quality_grade : String
  issues : List Issue
deriving DecidableEq

/-- Assembly of the generator payload from the engine output, as written in
app.py (the double-star splat of `analysis` table scores). -/
def mkLLMPayload (name dom : String) (ts : TableScore) (iss : List Issue) : LLMPayload :=
  { table_name := name, domain := dom,
    completeness_score := ts.completeness_score,
    correctness_score := ts.correctness_score,
    uniqueness_score := ts.uniqueness_score,
    consistency_score := ts.consistency_score,
    overall_score := ts.overall_score,
    quality_grade := ts.quality_grade,
    issues := iss }

/-- The top-level keys of the serialized generator payload of app.py
lines 100 to 105: the table-score entries appear spliced at top level
(there is no nested scores key). -/
def payloadKeys : List String :=
  ["table_name", "domain", "completeness_score", "correctness_score",
   "uniqueness_score", "consistency_score", "overall_score",
   "quality_grade", "issues"]

/-- Modelled from the spec: the payload shape the specification ascribes to
the black-box insight generator — a mapping with exactly the keys
table_name, domain, scores and issues (sections 1 and 6).  Stated from the
spec's words so it can be compared with `payloadKeys` taken from the
source. -/
def specPayloadShape : List String :=
  ["table_name", "domain", "scores", "issues"]

/-- A JSON route response of app.py, observed through its status code, the
success flag, whether the engine was invoked on the request, and the
analysis fields the handler attaches. -/
structure RouteResponse where
  status : Nat
  success : Bool
  engineInvoked : Bool
  table_scores : Option TableScore
  field_analyses : Option (List FieldAnalysis)
  issues : Option (List Issue)
  ai_insights : Option AiInsights
  detected_domain : Option String
deriving DecidableEq

/-- An error response carrying only a status code and success false, before
the engine is reached (app.py lines 83, 90, 131 to 139). -/
def errResponse (code : Nat) : RouteResponse :=
  { status := code, success := false, engineInvoked := false,
    table_scores := none, field_analyses := none, issues := none,
    ai_insights := none, detected_domain := none }

/-- The whitelisted table names of app.py lines 75 to 80. -/
def validTables : List String :=
  ["employees", "payroll", "invoices", "expenses"]

/-- Store of an insight generator outcome, app.py lines 99 to 112: the result
is kept verbatim on success, and the failure record is substituted when the
generator raises. -/
def aiOf (out : Except String String) : AiInsights :=
  match out with
  | Except.ok t => AiInsights.fromLLM t
  | Except.error e => AiInsights.failure e

/-- Translation of the handler `analyze_table` of app.py lines 69 to 124.
The database is abstracted as a map from table name to dataset and the
insight generator as a function from payload to an exception-or-text
outcome.  Unknown names answer 400, empty tables 404, an engine failure is
caught by the outer handler as 500, and otherwise the handler attaches the
verbatim or failure insight record and answers 200; this handler never sets
`detected_domain`. -/
def analyze_table_route (db : String → Dataset)
    (llm : LLMPayload → Except String String) (table_name : String) : RouteResponse :=
  if validTables.contains table_name then
    if (db table_name).rows.isEmpty then errResponse 404
    else
      match analyze (db table_name) with
      | Except.error _ =>
        { errResponse 500 with engineInvoked := true }
      | Except.ok r =>
        { status := 200, success := true, engineInvoked := true,
          table_scores := some r.table_scores,
          field_analyses := some r.field_analyses,
          issues := some r.issues,
          ai_insights := some (aiOf (llm (mkLLMPayload table_name ("HR/Finance") r.table_scores r.issues))),
          detected_domain := none }
  else errResponse 400

/-- The domain stored by `analyze_csv`: the detector's word on success and
the literal Unknown fallback when the detector raises (app.py lines 149 to
154). -/
def domOf (out : Except String String) : String :=
  match out with
  | Except.ok d => d
  | Except.error _ => "Unknown"

/-- Whether a file name ends in the csv suffix (app.py line 138). -/
def endsWithCsv (s : String) : Bool :=
  s.toList.reverse.take 4 == ['v', 's', 'c', '.']

/-- Translation of the handler `analyze_csv` of app.py lines 127 to 178,
from the point where the upload has been parsed into a dataset: empty file
names and non-csv names answer 400, an engine failure is caught as 500, and
otherwise the handler stores the detected domain (with its Unknown
fallback), attaches the verbatim or failure insight record and answers
200. -/
def analyze_csv_route (filename : String) (df : Dataset)
    (domainLLM : Except String String)
    (llm : LLMPayload → Except String String) : RouteResponse :=
  if filename = "" then errResponse 400
  else if !(endsWithCsv filename) then errResponse 400
  else
    match analyze df with
    | Except.error _ =>
      { errResponse 500 with engineInvoked := true }
    | Except.ok r =>
      let dom := domOf domainLLM
      { status := 200, success := true, engineInvoked := true,
        table_scores := some r.table_scores,
        field_analyses := some r.field_analyses,
        issues := some r.issues,
        ai_insights := some (aiOf (llm (mkLLMPayload filename dom r.table_scores r.issues))),
        detected_domain := some dom }

/-- From app.py line 40: module initialization constructs exactly one
`DataQualityAnalyzer`, bound to the module-level name `dq_analyzer`. -/
def dq_analyzer : DataQualityAnalyzer := { issues := [] }

/-- Number of analyzer instances constructed at module import in app.py
(line 40): one. -/
def moduleAnalyzerAllocations : Nat := 1

/-- Allocation index of the analyzer instance a request handler invocation
uses.  In app.py every handler closes over the module-level `dq_analyzer`
(lines 96 and 146), so every invocation uses the one instance allocated at
import, index zero; no handler constructs a fresh instance. -/
def analyzerInstanceForCall (_call : Nat) : Nat := 0

/-- A persisted insight row of the `review_insight` handler, app.py lines 351
to 378: identity plus the four reviewed fields the handler assigns. -/
structure DQInsight where
  id : Nat
  is_reviewed : Bool
  is_approved : Bool
  reviewed_by : String
  reviewed_at : Option Nat
deriving DecidableEq

/-- The request body fields `review_insight` reads (app.py lines 363 to
364). -/
structure ReviewRequest where
  approved : Bool
  reviewer : String
deriving DecidableEq

/-- Outcome of the `review_insight` handler: the HTTP status, the success
flag of the JSON body, and the persisted table after the call. -/
structure ReviewOutcome where
  status : Nat
  success : Bool
  db : List DQInsight
deriving DecidableEq

/-- The field assignments of app.py lines 362 to 365. -/
def applyReview (req : ReviewRequest) (now : Nat) (ins : DQInsight) : DQInsight :=
  { ins with
    is_reviewed := true
    is_approved := req.approved
    reviewed_by := req.reviewer
    reviewed_at := some now }

/-- Translation of the handler `review_insight` of app.py lines 351 to 378.
The persisted table is a list of rows; `req` is none when reading the
request body raises, and the body is read at line 356, before the insight
lookup at line 358, so a raising body read takes the except branch — the
session is rolled back and the handler answers 500 with the persisted rows
untouched — regardless of whether the id exists.  Only when the body read
succeeds does a missing id answer 404, before any modification.  `commitOk`
is false when `session.commit` raises (the same rollback path), and only
the success path commits the updated row. -/
def review_insight (db : List DQInsight) (insight_id : Nat)
    (req : Option ReviewRequest) (now : Nat) (commitOk : Bool) : ReviewOutcome :=
  match req with
  | none => { status := 500, success := false, db := db }
  | some r =>
    match db.find? (fun i => i.id == insight_id) with
    | none => { status := 404, success := false, db := db }
    | some _ =>
      if commitOk then
        { status := 200, success := true,
          db := db.map (fun i => if i.id == insight_id then applyReview r now i else i) }
      else
        { status := 500, success := false, db := db }

/-- A one-column, one-row concrete dataset used by the witnesses. -/
def ds0 : Dataset :=
  { columns := ["name"], rows := [[Value.str ("x")]] }

/-- A concrete database assigning the witness dataset to every table. -/
def db0 : String → Dataset := fun _ => ds0

/-- An insight generator that always succeeds with a fixed text. -/
def llmOk0 : LLMPayload → Except String String := fun _ => Except.ok ("looks fine")

/-- An insight generator that always raises a fixed error. -/
def llmBad0 : LLMPayload → Except String String := fun _ => Except.error ("boom")

/-- A concrete dataset with one declared column and zero rows. -/
def dsEmpty : Dataset := { columns := ["a"], rows := [] }

/-- A concrete database whose every table has declared columns but zero
rows. -/
def dbEmpty : String → Dataset := fun _ => dsEmpty

/-- A concrete persisted insight row used by the witnesses. -/
def ins0 : DQInsight :=
  { id := 5, is_reviewed := false, is_approved := false,
    reviewed_by := "", reviewed_at := none }

/-- A score lies in the closed interval from 0 to 100. -/
def scoreInRange (x : ℚ) : Prop := 0 ≤ x ∧ x ≤ 100

/-- A dataset satisfies the input contract of section 4.8: at least one
column and every row carrying one value per column. -/
def WellFormed (d : Dataset) : Prop :=
  d.columns ≠ [] ∧ ∀ r ∈ d.rows, r.length = d.columns.length

instance : Decidable (scoreInRange x) := by
  unfold scoreInRange; infer_instance

instance : Decidable (WellFormed d) := by
  unfold WellFormed; exact instDecidableAnd

theorem ratioScore_mem (k n : Nat) (h : k ≤ n) : scoreInRange (ratioScore k n) := by
  unfold scoreInRange ratioScore
  split
  · norm_num
  · rename_i hn
    have hn' : (0 : ℚ) < (n : ℚ) := by
      exact_mod_cast Nat.pos_of_ne_zero hn
    have hk : (k : ℚ) ≤ (n : ℚ) := by exact_mod_cast h
    constructor
    · positivity
    · rw [div_le_iff₀ hn']
      nlinarith

theorem presentValues_length_le (col : List Value) :
    (presentValues col).length ≤ col.length := by
  unfold presentValues
  exact List.length_filterMap_le _ _

theorem completenessScore_mem (col : List Value) :
    scoreInRange (completenessScore col) :=
  ratioScore_mem _ _ (presentValues_length_le col)

theorem correctnessScore_mem (col : List Value) (t : DType) :
    scoreInRange (correctnessScore col t) :=
  ratioScore_mem _ _ (List.length_filter_le _ _)

theorem uniquenessScore_mem (col : List Value) :
    scoreInRange (uniquenessScore col) :=
  ratioScore_mem _ _ ((List.dedup_sublist _).length_le)

theorem foldl_max_le (l : List Nat) (a n : Nat) (ha : a ≤ n)
    (h : ∀ x ∈ l, x ≤ n) : l.foldl max a ≤ n := by
  induction l generalizing a with
  | nil => exact ha
  | cons x xs ih =>
    exact ih (max a x) (max_le ha (h x (by simp)))
      (fun y hy => h y (by simp [hy]))

theorem modeCount_le (xs : List String) : modeCount xs ≤ xs.length := by
  unfold modeCount
  refine foldl_max_le _ 0 xs.length (Nat.zero_le _) ?_
  intro x hx
  rcases List.mem_map.mp hx with ⟨p, _, hp⟩
  exact hp ▸ List.length_filter_le _ _

theorem consistencyScore_mem (col : List Value) (t : DType) :
    scoreInRange (consistencyScore col t) := by
  unfold consistencyScore
  cases t
  all_goals
    first
    | exact ratioScore_mem _ _ (le_of_le_of_eq (modeCount_le _) (List.length_map _ _))
    | exact ratioScore_mem _ _ (List.length_filter_le _ _)

theorem avg4_mem (a b c d : ℚ) (ha : scoreInRange a) (hb : scoreInRange b)
    (hc : scoreInRange c) (hd : scoreInRange d) :
    scoreInRange ((a + b + c + d) / 4) := by
  obtain ⟨ha0, ha1⟩ := ha
  obtain ⟨hb0, hb1⟩ := hb
  obtain ⟨hc0, hc1⟩ := hc
  obtain ⟨hd0, hd1⟩ := hd
  constructor
  · positivity
  · rw [div_le_iff₀ (by norm_num : (0:ℚ) < 4)]
    linarith

theorem analyzeField_mem (name : String) (col : List Value) :
    scoreInRange (analyzeField name col).completeness_score ∧
    scoreInRange (analyzeField name col).correctness_score ∧
    scoreInRange (analyzeField name col).uniqueness_score ∧
    scoreInRange (analyzeField name col).consistency_score ∧
    scoreInRange (analyzeField name col).overall_score ∧
    (analyzeField name col).quality_grade =
      qualityGrade (analyzeField name col).overall_score := by
  refine ⟨?_, ?_, ?_, ?_, ?_, ?_⟩
  · exact completenessScore_mem col
  · exact correctnessScore_mem col (inferType col)
  · exact uniquenessScore_mem col
  · exact consistencyScore_mem col (inferType col)
  · exact avg4_mem _ _ _ _ (completenessScore_mem col)
      (correctnessScore_mem col (inferType col)) (uniquenessScore_mem col)
      (consistencyScore_mem col (inferType col))
  · rfl

theorem meanQ_mem (xs : List ℚ) (h : ∀ x ∈ xs, scoreInRange x) :
    scoreInRange (meanQ xs) := by
  unfold meanQ
  split
  · exact ⟨by norm_num, by norm_num⟩
  · rename_i hn
    have hl : (0 : ℚ) < (xs.length : ℚ) := by
      exact_mod_cast Nat.pos_of_ne_zero hn
    have hs0 : 0 ≤ xs.sum := List.sum_nonneg (fun x hx => (h x hx).1)
    have hs1 : xs.sum ≤ (xs.length : ℚ) * 100 := by
      have := List.sum_le_card_nsmul xs 100 (fun x hx => (h x hx).2)
      simpa [nsmul_eq_mul] using this
    constructor
    · positivity
    · rw [div_le_iff₀ hl]
      linarith

theorem meanQ_replicate (n : Nat) (hn : n ≠ 0) (x : ℚ) :
    meanQ (List.replicate n x) = x := by
  unfold meanQ
  have hl : ¬ (List.replicate n x).length = 0 := by simpa using hn
  rw [if_neg hl, List.sum_replicate, List.length_replicate, nsmul_eq_mul,
    mul_comm, mul_div_assoc, div_self (by exact_mod_cast hn), mul_one]

theorem qualityGrade_spec (s : ℚ) :
    (90 ≤ s → qualityGrade s = "A") ∧
    (75 ≤ s ∧ s < 90 → qualityGrade s = "B") ∧
    (60 ≤ s ∧ s < 75 → qualityGrade s = "C") ∧
    (40 ≤ s ∧ s < 60 → qualityGrade s = "D") ∧
    (s < 40 → qualityGrade s = "F") := by
  unfold qualityGrade
  refine ⟨fun h => ?_, ?_, ?_, ?_, fun h => ?_⟩
  · rw [if_pos h]
  · rintro ⟨h, h'⟩
    rw [if_neg (by linarith), if_pos h]
  · rintro ⟨h, h'⟩
    rw [if_neg (by linarith), if_neg (by linarith), if_pos h]
  · rintro ⟨h, h'⟩
    rw [if_neg (by linarith), if_neg (by linarith), if_neg (by linarith), if_pos h]
  · rw [if_neg (by linarith), if_neg (by linarith), if_neg (by linarith),
      if_neg (by linarith)]

theorem analyze_eq_ok (d : Dataset) (h : WellFormed d) :
    analyze d = Except.ok (analyzeReport d) := by
  obtain ⟨h1, h2⟩ := h
  have hlen : ¬ d.columns.length = 0 := by simpa [List.length_eq_zero] using h1
  have hall : d.rows.all (fun r => r.length = d.columns.length) = true :=
    List.all_eq_true.mpr (fun r hr => decide_eq_true (h2 r hr))
  simp [analyze, hlen, hall]

theorem analyze_ok_inv (d : Dataset) (r : Report)
    (h : analyze d = Except.ok r) : r = analyzeReport d := by
  unfold analyze at h
  split at h
  · exact absurd h (by simp)
  · split at h
    · exact absurd h (by simp)
    · exact (Except.ok.inj h).symm

theorem inferType_nil : inferType [] = DType.unknown := rfl

theorem completenessScore_nil : completenessScore [] = 100 := rfl

theorem correctnessScore_nil (t : DType) : correctnessScore [] t = 100 := rfl

theorem uniquenessScore_nil : uniquenessScore [] = 100 := rfl

theorem consistencyScore_nil (t : DType) : consistencyScore [] t = 100 := by
  cases t <;> rfl

theorem analyzeField_nil_overall (name : String) :
    (analyzeField name []).overall_score = 100 := by
  show (completenessScore [] + correctnessScore [] (inferType []) +
    uniquenessScore [] + consistencyScore [] (inferType [])) / 4 = 100
  rw [completenessScore_nil, correctnessScore_nil, uniquenessScore_nil,
    consistencyScore_nil]
  norm_num

theorem fieldIssues_nil (name : String) : fieldIssues name [] = [] := rfl

theorem columnAt_of_rows_nil (d : Dataset) (h : d.rows = []) (j : Nat) :
    columnAt d j = [] := by
  simp [columnAt, h]

theorem orderIssues_nil : orderIssues [] = [] := rfl

theorem table_route_cases (db : String → Dataset)
    (llm : LLMPayload → Except String String) (tn : String) :
    analyze_table_route db llm tn = errResponse 400 ∨
    analyze_table_route db llm tn = errResponse 404 ∨
    analyze_table_route db llm tn = { errResponse 500 with engineInvoked := true } ∨
    ∃ r : Report, analyze (db tn) = Except.ok r ∧
      analyze_table_route db llm tn =
        { status := 200, success := true, engineInvoked := true,
          table_scores := some r.table_scores,
          field_analyses := some r.field_analyses,
          issues := some r.issues,
          ai_insights := some (aiOf (llm (mkLLMPayload tn ("HR/Finance") r.table_scores r.issues))),
          detected_domain := none } := by
  unfold analyze_table_route
  split
  · split
    · right; left; rfl
    · split
      · right; right; left; rfl
      · rename_i r hr
        right; right; right
        exact ⟨r, hr, rfl⟩
  · left; rfl

theorem csv_route_cases (fn : String) (df : Dataset)
    (dl : Except String String) (llm : LLMPayload → Except String String) :
    analyze_csv_route fn df dl llm = errResponse 400 ∨
    analyze_csv_route fn df dl llm = { errResponse 500 with engineInvoked := true } ∨
    ∃ r : Report, analyze df = Except.ok r ∧
      analyze_csv_route fn df dl llm =
        { status := 200, success := true, engineInvoked := true,
          table_scores := some r.table_scores,
          field_analyses := some r.field_analyses,
          issues := some r.issues,
          ai_insights := some (aiOf (llm (mkLLMPayload fn (domOf dl) r.table_scores r.issues))),
          detected_domain := some (domOf dl) } := by
  unfold analyze_csv_route
  split
  · left; rfl
  · split
    · left; rfl
    · split
      · right; left; rfl
      · rename_i r hr
        right; right
        exact ⟨r, hr, rfl⟩

/-- Claim C2: for every dataset with at least one declared column and zero
rows, analysis succeeds rather than erroring — the engine's public entry
point returns a complete report whose table overall score is exactly 100
with an empty issue list, instead of treating zero rows as an error. -/
theorem analyze_zero_rows_succeeds (d : Dataset) (h0 : d.rows = [])
    (h1 : d.columns ≠ []) :
    analyze d = Except.ok (analyzeReport d) ∧
    (analyzeReport d).table_scores.overall_score = 100 ∧
    (analyzeReport d).issues = [] := by
  have hn : ¬ d.columns.length = 0 := by
    simpa [List.length_eq_zero] using h1
  have hwf : WellFormed d := ⟨h1, by simp [h0]⟩
  refine ⟨analyze_eq_ok d hwf, ?_, ?_⟩
  · show meanQ ((analyzeFields d).map (fun f => f.overall_score)) = 100
    unfold analyzeFields
    rw [List.map_map]
    have hconst : ∀ j ∈ List.range d.columns.length,
        ((fun f => f.overall_score) ∘
          fun j => analyzeField (d.columns.getD j ("")) (columnAt d j)) j = (100 : ℚ) := by
      intro j _
      simp only [Function.comp, columnAt_of_rows_nil d h0 j]
      exact analyzeField_nil_overall _
    rw [List.map_congr_left hconst, List.map_const', List.length_range]
    exact meanQ_replicate _ hn 100
  · show analyzeIssues d = []
    unfold analyzeIssues
    have hconst : ∀ j ∈ List.range d.columns.length,
        fieldIssues (d.columns.getD j ("")) (columnAt d j) = [] := by
      intro j _
      rw [columnAt_of_rows_nil d h0 j]
      exact fieldIssues_nil _
    rw [List.map_congr_left hconst, List.map_const']
    have hf : (List.replicate (List.range d.columns.length).length
        ([] : List Issue)).flatten = [] :=
      List.flatten_eq_nil_iff.mpr (fun l hl => List.eq_of_mem_replicate hl)
    rw [hf]
    exact orderIssues_nil

/-- Witness for C2 at the concrete one-column zero-row dataset. -/
theorem analyze_zero_rows_succeeds_witness :
    analyze dsEmpty = Except.ok (analyzeReport dsEmpty) ∧
    (analyzeReport dsEmpty).table_scores.overall_score = 100 ∧
    (analyzeReport dsEmpty).issues = [] :=
  analyze_zero_rows_succeeds dsEmpty rfl (by decide)

/-- Claim C3: for every dataset satisfying the input contract (at least one
column, all rows sharing the column set), `analyze` returns the complete
report — one field analysis per column, table scores and issues all present
— and in particular raises nothing; by its type it can only ever fail with
exactly an input error, and on contract-satisfying datasets it does not
fail at all. -/
theorem analyze_complete_or_input_error (d : Dataset) (h : WellFormed d) :
    analyze d = Except.ok (analyzeReport d) ∧
    (analyzeReport d).field_analyses.length = d.columns.length ∧
    (∀ e : InputError, analyze d ≠ Except.error e) := by
  have hok := analyze_eq_ok d h
  refine ⟨hok, ?_, ?_⟩
  · show (analyzeFields d).length = d.columns.length
    unfold analyzeFields
    rw [List.length_map, List.length_range]
  · intro e he
    rw [hok] at he
    exact Except.noConfusion he

/-- Witness for C3 at the concrete one-column one-row dataset. -/
theorem analyze_complete_or_input_error_witness :
    analyze ds0 = Except.ok (analyzeReport ds0) ∧
    (analyzeReport ds0).field_analyses.length = ds0.columns.length ∧
    (∀ e : InputError, analyze ds0 ≠ Except.error e) :=
  analyze_complete_or_input_error ds0 (by decide)

theorem analyzeFields_map_mem (d : Dataset) (g : FieldAnalysis → ℚ)
    (hg : ∀ name col, scoreInRange (g (analyzeField name col))) :
    ∀ q ∈ (analyzeFields d).map g, scoreInRange q := by
  intro q hq
  rcases List.mem_map.mp hq with ⟨fa, hfa, hq'⟩
  unfold analyzeFields at hfa
  rcases List.mem_map.mp hfa with ⟨j, _, hj⟩
  rw [← hq', ← hj]
  exact hg _ _

/-- Claim C7: for every dataset the analysis accepts, all four dimension
scores and the overall score, at field level and at table level, lie in the
closed interval from 0 to 100, every recorded grade equals the grade
function of the corresponding overall score, and the grade function obeys
the fixed thresholds 90/75/60/40 for A, B, C, D and otherwise F. -/
theorem scores_bounded_and_grade_thresholds (d : Dataset) (r : Report)
    (h : analyze d = Except.ok r) :
    (∀ fa ∈ r.field_analyses,
      scoreInRange fa.completeness_score ∧ scoreInRange fa.correctness_score ∧
      scoreInRange fa.uniqueness_score ∧ scoreInRange fa.consistency_score ∧
      scoreInRange fa.overall_score ∧
      fa.quality_grade = qualityGrade fa.overall_score) ∧
    (scoreInRange r.table_scores.completeness_score ∧
     scoreInRange r.table_scores.correctness_score ∧
     scoreInRange r.table_scores.uniqueness_score ∧
     scoreInRange r.table_scores.consistency_score ∧
     scoreInRange r.table_scores.overall_score ∧
     r.table_scores.quality_grade = qualityGrade r.table_scores.overall_score) ∧
    (∀ s : ℚ, (90 ≤ s → qualityGrade s = "A") ∧
      (75 ≤ s ∧ s < 90 → qualityGrade s = "B") ∧
      (60 ≤ s ∧ s < 75 → qualityGrade s = "C") ∧
      (40 ≤ s ∧ s < 60 → qualityGrade s = "D") ∧
      (s < 40 → qualityGrade s = "F")) := by
  have hr := analyze_ok_inv d r h
  subst hr
  refine ⟨?_, ⟨?_, ?_, ?_, ?_, ?_, rfl⟩, qualityGrade_spec⟩
  · intro fa hfa
    have hmem : fa ∈ analyzeFields d := hfa
    unfold analyzeFields at hmem
    rcases List.mem_map.mp hmem with ⟨j, _, hj⟩
    rw [← hj]
    exact analyzeField_mem _ _
  · exact meanQ_mem _ (analyzeFields_map_mem d _ (fun n c => (analyzeField_mem n c).1))
  · exact meanQ_mem _ (analyzeFields_map_mem d _ (fun n c => (analyzeField_mem n c).2.1))
  · exact meanQ_mem _ (analyzeFields_map_mem d _ (fun n c => (analyzeField_mem n c).2.2.1))
  · exact meanQ_mem _ (analyzeFields_map_mem d _ (fun n c => (analyzeField_mem n c).2.2.2.1))
  · exact meanQ_mem _ (analyzeFields_map_mem d _ (fun n c => (analyzeField_mem n c).2.2.2.2.1))

/-- Witness for C7 at the concrete one-column one-row dataset. -/
theorem scores_bounded_witness :
    scoreInRange (reportOf ds0).table_scores.overall_score ∧
    (reportOf ds0).table_scores.quality_grade =
      qualityGrade (reportOf ds0).table_scores.overall_score :=
  ⟨(scores_bounded_and_grade_thresholds ds0 (reportOf ds0) rfl).2.1.2.2.2.2.1,
   (scores_bounded_and_grade_thresholds ds0 (reportOf ds0) rfl).2.1.2.2.2.2.2⟩

/-- Claim C8: running the analysis twice on the same dataset is
deterministic and state-free — a second invocation from the analyzer state
left by the first returns the byte-identical report and state, because the
computation consults only the dataset (sampling during type inference takes
a deterministic prefix, so no hidden randomness exists). -/
theorem analyze_idempotent (a s : DataQualityAnalyzer) (d : Dataset)
    (r : Report) (h : a.analyze_dataframe d = Except.ok (r, s)) :
    s.analyze_dataframe d = Except.ok (r, s) := h

/-- Witness for C8: the second run from the post-run state on the concrete
dataset reproduces the first run's output exactly. -/
theorem analyze_idempotent_witness :
    DataQualityAnalyzer.analyze_dataframe { issues := (reportOf ds0).issues } ds0 =
      Except.ok (reportOf ds0, { issues := (reportOf ds0).issues }) :=
  analyze_idempotent dq_analyzer { issues := (reportOf ds0).issues } ds0
    (reportOf ds0) rfl

/-- Claim C4, counterexample: the calling layer does not construct a fresh
engine per call — app.py line 40 allocates a single module-level analyzer
and both analysis routes reuse it, so two distinct invocations (calls 0 and
1) use the same instance, refuting the claim that the engine value is
constructed fresh per call. -/
theorem shared_analyzer_instance_counterexample :
    (0 : Nat) ≠ 1 ∧ analyzerInstanceForCall 0 = analyzerInstanceForCall 1 := by
  constructor
  · decide
  · rfl

/-- Claim C4 as amended: the calling layer shares one module-level analyzer
instance across calls rather than constructing one per call; invocation
results are nevertheless independent, because `analyze_dataframe` never
consults the instance state — any instance, in any state, returns exactly
what the shared module instance returns on the same dataset. -/
theorem analyze_result_independent_of_instance (a : DataQualityAnalyzer)
    (d : Dataset) :
    a.analyze_dataframe d = dq_analyzer.analyze_dataframe d := rfl

/-- Claim C1: in both analysis routes, a failure of the external insight
generator never fails the response and never alters the engine fields — the
handler still answers 200 with success true, the engine's table scores,
field analyses and issues unchanged, and the insight slot replaced by the
failure record carrying the error text. -/
theorem routes_insulate_llm_failure :
    (∀ (db : String → Dataset) (tn e : String) (r : Report),
      validTables.contains tn = true →
      (db tn).rows.isEmpty = false →
      analyze (db tn) = Except.ok r →
      analyze_table_route db (fun _ => Except.error e) tn =
        { status := 200, success := true, engineInvoked := true,
          table_scores := some r.table_scores,
          field_analyses := some r.field_analyses,
          issues := some r.issues,
          ai_insights := some (AiInsights.failure e),
          detected_domain := none }) ∧
    (∀ (fn : String) (df : Dataset) (dl : Except String String)
      (e : String) (r : Report),
      (fn = "") = False →
      endsWithCsv fn = true →
      analyze df = Except.ok r →
      analyze_csv_route fn df dl (fun _ => Except.error e) =
        { status := 200, success := true, engineInvoked := true,
          table_scores := some r.table_scores,
          field_analyses := some r.field_analyses,
          issues := some r.issues,
          ai_insights := some (AiInsights.failure e),
          detected_domain := some (domOf dl) }) := by
  constructor
  · intro db tn e r h1 h2 h3
    have h1m : tn ∈ validTables := by simpa using h1
    simp [analyze_table_route, h1m, h2, h3, aiOf]
  · intro fn df dl e r h1 h2 h3
    simp [analyze_csv_route, h1, h2, h3, aiOf]

/-- Witness for C1: a concrete table-route request with a failing insight
generator still answers 200 with the engine fields intact. -/
theorem routes_insulate_llm_failure_witness :
    analyze_table_route db0 (fun _ => Except.error ("boom")) ("employees") =
      { status := 200, success := true, engineInvoked := true,
        table_scores := some (reportOf ds0).table_scores,
        field_analyses := some (reportOf ds0).field_analyses,
        issues := some (reportOf ds0).issues,
        ai_insights := some (AiInsights.failure ("boom")),
        detected_domain := none } :=
  routes_insulate_llm_failure.1 db0 ("employees") ("boom") (reportOf ds0)
    (by decide) (by decide) rfl

/-- Claim C5, counterexample: a successful response of the database-table
route does not carry the `detected_domain` pass-through field — only the
CSV route adds it — so the claim that both routes populate both caller
fields fails on this concrete request. -/
theorem table_route_lacks_detected_domain :
    (analyze_table_route db0 llmOk0 ("employees")).success = true ∧
    (analyze_table_route db0 llmOk0 ("employees")).detected_domain = none := by
  constructor
  · rfl
  · rfl

/-- Claim C5 as amended: every successful analysis response carries the
engine fields (table scores, field analyses, issues) plus the caller-added
`ai_insights`; the CSV-upload route additionally populates
`detected_domain`, while the database-table route leaves it absent. -/
theorem success_response_field_presence :
    (∀ (db : String → Dataset) (llm : LLMPayload → Except String String)
      (tn : String),
      (analyze_table_route db llm tn).success = true →
      ((analyze_table_route db llm tn).table_scores.isSome = true ∧
       (analyze_table_route db llm tn).field_analyses.isSome = true ∧
       (analyze_table_route db llm tn).issues.isSome = true ∧
       (analyze_table_route db llm tn).ai_insights.isSome = true ∧
       (analyze_table_route db llm tn).detected_domain = none)) ∧
    (∀ (fn : String) (df : Dataset) (dl : Except String String)
      (llm : LLMPayload → Except String String),
      (analyze_csv_route fn df dl llm).success = true →
      ((analyze_csv_route fn df dl llm).table_scores.isSome = true ∧
       (analyze_csv_route fn df dl llm).field_analyses.isSome = true ∧
       (analyze_csv_route fn df dl llm).issues.isSome = true ∧
       (analyze_csv_route fn df dl llm).ai_insights.isSome = true ∧
       (analyze_csv_route fn df dl llm).detected_domain.isSome = true)) := by
  constructor
  · intro db llm tn hs
    rcases table_route_cases db llm tn with h | h | h | ⟨r, _, h⟩
    · rw [h] at hs
      exact absurd hs (by simp [errResponse])
    · rw [h] at hs
      exact absurd hs (by simp [errResponse])
    · rw [h] at hs
      exact absurd hs (by simp [errResponse])
    · rw [h]
      simp
  · intro fn df dl llm hs
    rcases csv_route_cases fn df dl llm with h | h | ⟨r, _, h⟩
    · rw [h] at hs
      exact absurd hs (by simp [errResponse])
    · rw [h] at hs
      exact absurd hs (by simp [errResponse])
    · rw [h]
      simp

/-- Witness for C5's amended statement on a concrete successful table-route
request. -/
theorem success_response_field_presence_witness :
    (analyze_table_route db0 llmOk0 ("employees")).table_scores.isSome = true ∧
    (analyze_table_route db0 llmOk0 ("employees")).field_analyses.isSome = true ∧
    (analyze_table_route db0 llmOk0 ("employees")).issues.isSome = true ∧
    (analyze_table_route db0 llmOk0 ("employees")).ai_insights.isSome = true ∧
    (analyze_table_route db0 llmOk0 ("employees")).detected_domain = none :=
  success_response_field_presence.1 db0 llmOk0 ("employees") rfl

/-- Claim C6, counterexample: the argument dictionary the routes hand to the
insight generator does not have the literal shape with the four keys
table_name, domain, scores and issues the claim states — the table-score
entries are spliced in at top level by the double-star splat, so the key
list differs from the claimed shape. -/
theorem llm_payload_shape_counterexample : payloadKeys ≠ specPayloadShape := by
  decide

/-- Claim C6 as amended: the generator argument is assembled from the
engine's output as the display name, a domain string, the six table-level
score entries merged at top level (not nested under one scores key) and the
issues list; and the generator's returned free text is stored verbatim in
the response, never re-interpreted. -/
theorem llm_payload_fields_and_verbatim :
    (∀ (name dom : String) (ts : TableScore) (iss : List Issue),
      (mkLLMPayload name dom ts iss).table_name = name ∧
      (mkLLMPayload name dom ts iss).domain = dom ∧
      (mkLLMPayload name dom ts iss).completeness_score = ts.completeness_score ∧
      (mkLLMPayload name dom ts iss).correctness_score = ts.correctness_score ∧
      (mkLLMPayload name dom ts iss).uniqueness_score = ts.uniqueness_score ∧
      (mkLLMPayload name dom ts iss).consistency_score = ts.consistency_score ∧
      (mkLLMPayload name dom ts iss).overall_score = ts.overall_score ∧
      (mkLLMPayload name dom ts iss).quality_grade = ts.quality_grade ∧
      (mkLLMPayload name dom ts iss).issues = iss) ∧
    (∀ (db : String → Dataset) (tn t : String) (r : Report)
      (llm : LLMPayload → Except String String),
      validTables.contains tn = true →
      (db tn).rows.isEmpty = false →
      analyze (db tn) = Except.ok r →
      llm (mkLLMPayload tn ("HR/Finance") r.table_scores r.issues) = Except.ok t →
      (analyze_table_route db llm tn).ai_insights =
        some (AiInsights.fromLLM t)) := by
  constructor
  · intro name dom ts iss
    exact ⟨rfl, rfl, rfl, rfl, rfl, rfl, rfl, rfl, rfl⟩
  · intro db tn t r llm h1 h2 h3 h4
    have h1m : tn ∈ validTables := by simpa using h1
    simp [analyze_table_route, h1m, h2, h3, h4, aiOf]

/-- Witness for C6's amended statement: on a concrete request the
generator's text is stored verbatim. -/
theorem llm_payload_verbatim_witness :
    (analyze_table_route db0 llmOk0 ("employees")).ai_insights =
      some (AiInsights.fromLLM ("looks fine")) :=
  llm_payload_fields_and_verbatim.2 db0 ("employees") ("looks fine")
    (reportOf ds0) llmOk0 (by decide) (by decide) rfl rfl

/-- Claim C9: for the database-table route, an unknown table name answers
400 with success false and an empty known table answers 404 with success
false, and in both cases the data-quality engine is never invoked, so
through this route the engine never receives an unknown or empty table. -/
theorem table_route_guards (db : String → Dataset)
    (llm : LLMPayload → Except String String) (tn : String) :
    (validTables.contains tn = false →
      analyze_table_route db llm tn = errResponse 400 ∧
      (analyze_table_route db llm tn).status = 400 ∧
      (analyze_table_route db llm tn).success = false ∧
      (analyze_table_route db llm tn).engineInvoked = false) ∧
    (validTables.contains tn = true → (db tn).rows.isEmpty = true →
      analyze_table_route db llm tn = errResponse 404 ∧
      (analyze_table_route db llm tn).status = 404 ∧
      (analyze_table_route db llm tn).success = false ∧
      (analyze_table_route db llm tn).engineInvoked = false) := by
  constructor
  · intro h
    have he : analyze_table_route db llm tn = errResponse 400 := by
      have hm : tn ∉ validTables := by
        simpa using h
      simp [analyze_table_route, hm]
    refine ⟨he, ?_, ?_, ?_⟩ <;> rw [he] <;> rfl
  · intro h1 h2
    have h1m : tn ∈ validTables := by simpa using h1
    have he : analyze_table_route db llm tn = errResponse 404 := by
      simp [analyze_table_route, h1m, h2]
    refine ⟨he, ?_, ?_, ?_⟩ <;> rw [he] <;> rfl

/-- Witness for C9: a concrete unknown table name answers 400 and a concrete
empty known table answers 404, both without invoking the engine. -/
theorem table_route_guards_witness :
    (analyze_table_route db0 llmOk0 ("nope") = errResponse 400 ∧
     (analyze_table_route db0 llmOk0 ("nope")).status = 400 ∧
     (analyze_table_route db0 llmOk0 ("nope")).success = false ∧
     (analyze_table_route db0 llmOk0 ("nope")).engineInvoked = false) ∧
    (analyze_table_route dbEmpty llmOk0 ("employees") = errResponse 404 ∧
     (analyze_table_route dbEmpty llmOk0 ("employees")).status = 404 ∧
     (analyze_table_route dbEmpty llmOk0 ("employees")).success = false ∧
     (analyze_table_route dbEmpty llmOk0 ("employees")).engineInvoked = false) :=
  ⟨(table_route_guards db0 llmOk0 ("nope")).1 (by decide),
   (table_route_guards dbEmpty llmOk0 ("employees")).2 (by decide) (by decide)⟩

/-- Claim C10, counterexample: the review handler does not answer 404 for
every missing id — the request body is read at app.py line 356, before the
insight lookup at line 358, so when the body read raises on a request for a
missing id (here id 7 against a table holding only id 5) the handler takes
the except branch and answers 500, not 404.  The persisted rows are still
untouched. -/
theorem review_insight_404_counterexample :
    [ins0].find? (fun i => i.id == 7) = none ∧
    (review_insight [ins0] 7 none 0 true).status = 500 ∧
    (review_insight [ins0] 7 none 0 true).status ≠ 404 ∧
    (review_insight [ins0] 7 none 0 true).db = [ins0] := by
  refine ⟨?_, ?_, ?_, ?_⟩ <;> decide

/-- Claim C10 as amended: the review handler is atomic on error — whenever
it does not report success the persisted rows are unchanged; a raising
request-body read (which happens before the insight lookup) rolls back and
answers 500 with the rows untouched even when the id is missing; when the
body read succeeds, a missing id answers 404 before any modification; and
the updated row is committed only on the success path, which requires the
commit to go through. -/
theorem review_insight_atomic (db : List DQInsight) (insight_id : Nat)
    (req : Option ReviewRequest) (now : Nat) (commitOk : Bool) :
    ((review_insight db insight_id req now commitOk).success = false →
      (review_insight db insight_id req now commitOk).db = db) ∧
    (req = none →
      (review_insight db insight_id req now commitOk).status = 500 ∧
      (review_insight db insight_id req now commitOk).db = db) ∧
    (∀ r : ReviewRequest, req = some r →
      db.find? (fun i => i.id == insight_id) = none →
      (review_insight db insight_id req now commitOk).status = 404 ∧
      (review_insight db insight_id req now commitOk).db = db) ∧
    ((review_insight db insight_id req now commitOk).success = true →
      (review_insight db insight_id req now commitOk).status = 200 ∧
      commitOk = true) := by
  rcases req with _ | r
  · simp [review_insight]
  · rcases hfind : db.find? (fun i => i.id == insight_id) with _ | ins
    · simp [review_insight, hfind]
    · rcases commitOk with _ | _
      · simp [review_insight, hfind]
      · simp [review_insight, hfind]

/-- Witness for C10's amended statement: a concrete well-read request for a
missing id answers 404 and leaves the persisted rows untouched. -/
theorem review_insight_atomic_witness :
    (review_insight [ins0] 7 (some { approved := true, reviewer := "r" }) 0 true).status = 404 ∧
    (review_insight [ins0] 7 (some { approved := true, reviewer := "r" }) 0 true).db = [ins0] :=
  (review_insight_atomic [ins0] 7 (some { approved := true, reviewer := "r" }) 0 true).2.2.1
    { approved := true, reviewer := "r" } rfl (by decide)
